import Mathlib

/-!
Verification development for the TypeMotion ad-generator (repository `clic`).

The repository is a browser app: a generation client over a generative-AI
provider (`src/services/geminiService.ts`) and a view-state controller
(`src/unnamed/part_000`, the `App` component).  External effects — the
provider's text/image/video calls, `localStorage`, `window.open`,
`encodeURIComponent`, `JSON.stringify`/`JSON.parse` — are modelled as
explicit inputs or as faithful character-level functions.  JavaScript
strings are modelled as Lean `String` (lengths count characters rather
than UTF-16 code units; no claim here depends on the difference).
-/

namespace Clic

/-- Character class of ECMAScript `String.prototype.trim` (WhiteSpace and
LineTerminator code points). -/
def jsWhitespaceChar (c : Char) : Bool :=
  let n := c.toNat
  (9 ≤ n && n ≤ 13) || n == 32 || n == 0xA0 || n == 0x1680 ||
    (0x2000 ≤ n && n ≤ 0x200A) || n == 0x2028 || n == 0x2029 ||
    n == 0x202F || n == 0x205F || n == 0x3000 || n == 0xFEFF

/-- Model of JavaScript `s.trim()`. -/
def jsTrim (s : String) : String :=
  String.mk (((s.data.dropWhile jsWhitespaceChar).reverse.dropWhile jsWhitespaceChar).reverse)

/-- Model of JavaScript `s.slice(0, n)`. -/
def jsSlice (s : String) (n : ℕ) : String :=
  String.mk (s.data.take n)

/-- Model of JavaScript `a || b` on strings (the empty string is falsy). -/
def jsOr (a b : String) : String :=
  if a = "" then b else a

/-- Outcome of one `ai.models.generateContent` call: either the call throws
(`error`), or it returns a response whose `text` field is possibly absent. -/
abbrev TextModelCall := Except Unit (Option String)

/-- Fixed default returned by `generateStyleSuggestion` when the model call
throws (`geminiService.ts` line 33). -/
def defaultStyleSuggestion : String :=
  "Cenário cinematográfico minimalista com iluminação dramática."

/-- Model of `generateStyleSuggestion` (`geminiService.ts` lines 25–34).
The `call` argument is the outcome of the provider call; the function is
total — the source wraps the call in `try`/`catch`, so it never throws.
Source body: `return response.text?.trim() || "";` with the catch returning
the fixed default. -/
def generateStyleSuggestion (text : String) (call : TextModelCall) : String :=
  match call with
  | .error _ => defaultStyleSuggestion
  | .ok none => jsOr "" ""
  | .ok (some s) => jsOr (jsTrim s) ""

/-- The four fallback caption templates of `generateAdCaption`
(`geminiService.ts` lines 54–59), each interpolating the product text. -/
def fallbackFrases (description : String) : List String :=
  ["🔥 OFERTA! Confira agora esse incrível " ++ description ++
      ". Qualidade garantida e preço especial hoje! 🚀",
   "⚡ ACHADINHO: Acabamos de encontrar o melhor " ++ description ++
      " para você. Aproveite antes que acabe! 😍",
   "🚨 PROMOÇÃO! " ++ description ++
      " com o visual que você sempre quis. Design e performance únicos! ✅",
   "✨ NOVIDADE! O " ++ description ++
      " que é tendência absoluta chegou. Garanta o seu com exclusividade! 💎"]

/-- Fallback selection `frases[Math.floor(Math.random() * frases.length)]`;
the random index is an explicit argument. -/
def fallbackCaption (description : String) (rand : Fin 4) : String :=
  (fallbackFrases description).get ⟨rand.val, by
    have h4 : (fallbackFrases description).length = 4 := rfl
    omega⟩

/-- Model of `generateAdCaption` (`geminiService.ts` lines 36–62).  On a
successful call the response text is trimmed and sliced to 160; a missing,
empty or shorter-than-5 result throws into the same `catch` as a call
failure, which picks one of the four templates. -/
def generateAdCaption (description style link : String) (call : TextModelCall)
    (rand : Fin 4) : String :=
  match call with
  | .error _ => fallbackCaption description rand
  | .ok none => fallbackCaption description rand
  | .ok (some s) =>
    let textoIA := jsSlice (jsTrim s) 160
    if textoIA = "" ∨ textoIA.length < 5 then fallbackCaption description rand
    else textoIA

/-- A 200-character product text, used to exercise the fallback templates on
a long input. -/
def longProduct : String := String.mk (List.replicate 200 'a')

/-- Inline binary payload carried by a part of the image-model response. -/
structure InlineData where
  data : String
  mimeType : Option String
deriving DecidableEq, Repr

/-- One part of a candidate's content (only the `inlineData` field is
inspected by the source). -/
structure ImagePart where
  inlineData : Option InlineData
deriving DecidableEq, Repr

/-- Content of one candidate output. -/
structure ImageContent where
  parts : List ImagePart
deriving DecidableEq, Repr

/-- One candidate output of the image model. -/
structure ImageCandidate where
  content : Option ImageContent
deriving DecidableEq, Repr

/-- Response of `ai.models.generateContent` for the image model. -/
structure ImageResponse where
  candidates : Option (List ImageCandidate)
deriving DecidableEq, Repr

/-- `response.candidates?.[0]?.content?` — the content of the first
candidate, when present. -/
def firstCandidateContent (resp : ImageResponse) : Option ImageContent :=
  (resp.candidates.bind List.head?).bind (·.content)

/-- `response.candidates?.[0]?.content?.parts.find(p => p.inlineData)`
(`geminiService.ts` line 90). -/
def firstCandidateFoundPart (resp : ImageResponse) : Option ImagePart :=
  (firstCandidateContent resp).bind
    (fun c => c.parts.find? (fun p => p.inlineData.isSome))

/-- Model of the response inspection of `generateTextImage`
(`geminiService.ts` lines 84–93): return the inline payload and its encoding
kind (defaulted to `image/png` when falsy), or throw
`"Falha ao gerar imagem."`.  The prompt construction (lines 73–82) does not
affect which value is returned for a given response, so the response is the
only argument. -/
def generateTextImage (resp : ImageResponse) : Except String (String × String) :=
  match (firstCandidateFoundPart resp).bind (·.inlineData) with
  | some idata => .ok (idata.data, jsOr (idata.mimeType.getD "") "image/png")
  | none => .error "Falha ao gerar imagem."

/-- Spec-side reading of C6: some part of some candidate of the response
carries inline data. -/
def responseHasInlineImagePart (resp : ImageResponse) : Bool :=
  (resp.candidates.getD []).any
    (fun c => ((c.content.map (·.parts)).getD []).any (fun p => p.inlineData.isSome))

/-- Code-side condition: the first candidate carries a part with inline
data. -/
def firstCandidateHasInlinePart (resp : ImageResponse) : Bool :=
  (((firstCandidateContent resp).map (·.parts)).getD []).any
    (fun p => p.inlineData.isSome)

/-- A response whose first candidate has no inline part but whose second
candidate does. -/
def respSecondCandidateInline : ImageResponse :=
  ⟨some [⟨some ⟨[⟨none⟩]⟩⟩, ⟨some ⟨[⟨some ⟨"IMGDATA", some "image/png"⟩⟩]⟩⟩]⟩

/-- A fetchable video reference inside a completed operation. -/
structure VideoUriRef where
  uri : Option String
deriving DecidableEq, Repr

/-- One generated-video descriptor. -/
structure GeneratedVideo where
  video : Option VideoUriRef
deriving DecidableEq, Repr

/-- Response carried by a completed video operation. -/
structure VideoOpResponse where
  generatedVideos : Option (List GeneratedVideo)
deriving DecidableEq, Repr

/-- Long-running video operation handle: a completion flag and, when
complete, a response. -/
structure VideoOperation where
  done : Bool
  response : Option VideoOpResponse
deriving DecidableEq, Repr

/-- `operation.response?.generatedVideos?.[0]?.video?.uri`
(`geminiService.ts` line 125). -/
def operationUri (op : VideoOperation) : Option String :=
  (((op.response.bind (·.generatedVideos)).bind List.head?).bind (·.video)).bind (·.uri)

/-- Observable events of the poll loop: the fixed wait and the status
check (`ai.operations.getVideosOperation`), numbered from 0. -/
inductive PollEvent where
  | sleepMs (n : ℕ)
  | statusCheck (i : ℕ)
deriving DecidableEq, Repr

/-- True on status-check events. -/
def PollEvent.isStatusCheck : PollEvent → Bool
  | .statusCheck _ => true
  | _ => false

/-- Model of the loop `while (!operation.done) { await sleep(5000);
operation = await ai.operations.getVideosOperation(...); }`
(`geminiService.ts` lines 120–123).  `poll i` is the result of the i-th
status check; `fuel` only bounds the recursion so the model is total —
`none` corresponds to the real loop still running after `fuel` checks
(the source has no bound of its own). -/
def pollVideoOperation (poll : ℕ → VideoOperation) (op : VideoOperation)
    (i fuel : ℕ) : List PollEvent × Option VideoOperation :=
  if op.done then ([], some op)
  else
    match fuel with
    | 0 => ([], none)
    | fuel' + 1 =>
      let rest := pollVideoOperation poll (poll i) (i + 1) fuel'
      (PollEvent.sleepMs 5000 :: PollEvent.statusCheck i :: rest.1, rest.2)

/-- Model of `generateTextVideo` after the job submission
(`geminiService.ts` lines 108–128): `submitOp` is the handle returned by
`ai.models.generateVideos`, `poll` the status-check oracle, `fetchUrl` the
composite of `fetch` and `URL.createObjectURL`, `apiKey` the credential
appended to the result URI.  The source's `if (!uri) throw` (line 126)
tests JavaScript falsiness, so an absent URI and an empty-string URI both
throw; an absent URI is folded to `""` before the test.  Returns `none`
when the poll loop is still running after `fuel` checks. -/
def generateTextVideo (poll : ℕ → VideoOperation) (submitOp : VideoOperation)
    (fetchUrl : String → String) (apiKey : String) (fuel : ℕ) :
    Option (Except String String) :=
  match (pollVideoOperation poll submitOp 0 fuel).2 with
  | none => none
  | some finalOp =>
    let uri := (operationUri finalOp).getD ""
    if uri = "" then some (.error "Falha ao gerar vídeo.")
    else some (.ok (fetchUrl (uri ++ "&key=" ++ apiKey)))

/-- The provider double of C3: the submitted operation is not done, status
checks 0 … N−1 report "not done", and status check N reports `doneOp`
(which must be done). -/
def pollDouble (N : ℕ) (doneOp : VideoOperation) : ℕ → VideoOperation :=
  fun i => if i < N then ⟨false, none⟩ else doneOp

/-- A concrete completed operation carrying a result URI, for evaluating the
poll-loop theorem. -/
def doneOpSample : VideoOperation :=
  ⟨true, some ⟨some [⟨some ⟨some "https://video.example/u?alt=media"⟩⟩]⟩⟩

/-- Modelled from the spec: the `AppState` enum is declared in `types.ts`,
which is not among the provided sources; its five members are pinned by the
spec's ViewState (Idle, GeneratingImage, GeneratingVideo, Playing, Error) and
by every use site in the `App` component. -/
inductive AppState where
  | IDLE
  | GENERATING_IMAGE
  | GENERATING_VIDEO
  | PLAYING
  | ERROR
deriving DecidableEq, Repr

/-- The React state cells of `App` that `startProcess` reads or writes
(`part_000` lines 106–120). -/
structure ControllerState where
  state : AppState
  showKeyDialog : Bool
  imageSrc : Option String
  videoSrc : Option String
  adCaption : String
  statusMessage : String
deriving DecidableEq, Repr

/-- One state-setter call performed by `startProcess`, in program order. -/
inductive Action where
  | setStateA (s : AppState)
  | setVideoSrcA (v : Option String)
  | setImageSrcA (v : Option String)
  | setAdCaptionA (c : String)
  | setStatusMessageA (m : String)
  | setShowKeyDialogA (b : Bool)
deriving DecidableEq, Repr

/-- Inputs and external outcomes of one `startProcess` run: the form fields
it reads, the host key-selection capability, the random style draw, and the
results of the three generation calls (`generateAdCaption` is total, so its
outcome is a plain string; image and video generation may throw, carrying the
thrown message). -/
structure RunEnv where
  inputText : String
  inputStyle : String
  typographyPrompt : String
  contentUrl : String
  referenceImage : Option String
  keySelected : Bool
  randomStyle : String
  captionResult : String
  imageResult : Except String (String × String)
  videoResult : Except String String

/-- `err.message || "Erro ao processar."` (`part_000` line 196). -/
def errMessage (msg : String) : String := jsOr msg "Erro ao processar."

/-- Model of `startProcess` (`part_000` lines 160–199): returns the final
controller state together with the ordered list of state-setter calls.
Guards: empty (trimmed) input is a no-op; a missing API key only opens the
key dialog.  Otherwise: enter GENERATING_IMAGE and clear the result fields;
store the caption; on image success store the image data URL and enter
GENERATING_VIDEO; on video success store the video URL and enter PLAYING;
an image or video failure sets the message and enters ERROR. -/
def startProcess (env : RunEnv) (s0 : ControllerState) : ControllerState × List Action :=
  if jsTrim env.inputText = "" then (s0, [])
  else if env.keySelected = false then
    ({ s0 with showKeyDialog := true }, [.setShowKeyDialogA true])
  else
    let s1 : ControllerState :=
      { s0 with state := .GENERATING_IMAGE, videoSrc := none, imageSrc := none,
                adCaption := "", statusMessage := "Analisando produto..." }
    let acts1 : List Action :=
      [.setStateA .GENERATING_IMAGE, .setVideoSrcA none, .setImageSrcA none,
       .setAdCaptionA "", .setStatusMessageA "Analisando produto..."]
    let s2 := { s1 with adCaption := env.captionResult }
    let acts2 := acts1 ++ [.setAdCaptionA env.captionResult]
    match env.imageResult with
    | .error msg =>
      ({ s2 with statusMessage := errMessage msg, state := .ERROR },
       acts2 ++ [.setStatusMessageA (errMessage msg), .setStateA .ERROR])
    | .ok (b64Image, mimeType) =>
      let dataUrl := "data:" ++ mimeType ++ ";base64," ++ b64Image
      let s3 := { s2 with imageSrc := some dataUrl, state := .GENERATING_VIDEO,
                          statusMessage := "Criando vídeo com legenda estética..." }
      let acts3 := acts2 ++
        [.setImageSrcA (some dataUrl), .setStateA .GENERATING_VIDEO,
         .setStatusMessageA "Criando vídeo com legenda estética..."]
      match env.videoResult with
      | .error msg =>
        ({ s3 with statusMessage := errMessage msg, state := .ERROR },
         acts3 ++ [.setStatusMessageA (errMessage msg), .setStateA .ERROR])
      | .ok videoUrl =>
        ({ s3 with videoSrc := some videoUrl, state := .PLAYING },
         acts3 ++ [.setVideoSrcA (some videoUrl), .setStateA .PLAYING])

/-- The submit control's `disabled` attribute
(`part_000` line 410): `!inputText.trim() || state !== AppState.IDLE`. -/
def submitDisabled (env : RunEnv) (s : ControllerState) : Bool :=
  jsTrim env.inputText = "" || s.state ≠ AppState.IDLE

/-- The submit action as dispatchable through the form: the consumer disables
the submit control outside Idle, so a disabled submit dispatches nothing. -/
def submitFromForm (env : RunEnv) (s : ControllerState) : ControllerState × List Action :=
  if submitDisabled env s then (s, []) else startProcess env s

/-- The sequence of `setState` values in an action trace. -/
def stateTrace (acts : List Action) : List AppState :=
  acts.filterMap (fun a => match a with | .setStateA s => some s | _ => none)

/-- A run environment for concrete evaluations: valid input, key selected,
all three calls succeed. -/
def envOk : RunEnv :=
  ⟨"Tênis Esportivo Azul", "", "", "", none, true, "random style",
   "Compre o Tênis Esportivo Azul!", .ok ("IMGB64", "image/png"), .ok "blob:video-1"⟩

/-- A run environment whose video call throws the missing-URI failure. -/
def envVideoFail : RunEnv :=
  ⟨"Tênis Esportivo Azul", "", "", "", none, true, "random style",
   "Compre o Tênis Esportivo Azul!", .ok ("IMGB64", "image/png"),
   .error "Falha ao gerar vídeo."⟩

/-- The controller state before a run: Idle with empty result fields. -/
def idleState : ControllerState := ⟨.IDLE, false, none, none, "", ""⟩

/-- A controller state mid-run (Playing, with a previous result). -/
def playingState : ControllerState :=
  ⟨.PLAYING, false, some "data:image/png;base64,OLD", some "blob:old", "old caption", ""⟩

/-- The local user profile (`part_000` lines 19–25): display name, phone,
and the three social-network links. -/
structure UserProfile where
  name : String
  phone : String
  instagram : String
  twitter : String
  tiktok : String
deriving DecidableEq, Repr

/-- Characters `encodeURIComponent` leaves unescaped: ASCII alphanumerics
and `- _ . ! ~ * ' ( )`. -/
def uriUnreservedChar (c : Char) : Bool :=
  (('A' ≤ c && c ≤ 'Z') || ('a' ≤ c && c ≤ 'z') || ('0' ≤ c && c ≤ '9')) ||
    (c == '-' || c == '_' || c == '.' || c == '!' || c == '~' || c == '*' ||
     c == Char.ofNat 39 || c == '(' || c == ')')

/-- Uppercase hexadecimal digit for `n < 16`. -/
def hexUpperDigit (n : ℕ) : Char :=
  if n < 10 then Char.ofNat (48 + n) else Char.ofNat (55 + n)

/-- Percent-encoding of one byte, `%XY` with uppercase hex. -/
def percentEncodeByte (b : UInt8) : List Char :=
  ['%', hexUpperDigit (b.toNat / 16), hexUpperDigit (b.toNat % 16)]

/-- Model of the browser builtin `encodeURIComponent`: unreserved characters
pass through, every other character is UTF-8 encoded and percent-escaped. -/
def encodeURIComponent (s : String) : String :=
  String.mk (s.data.flatMap (fun c =>
    if uriUnreservedChar c then [c]
    else (String.utf8EncodeChar c).flatMap percentEncodeByte))

/-- Whether `p` is a leading segment of `s` (character lists). -/
def beginsWithChars : List Char → List Char → Bool
  | [], _ => true
  | _ :: _, [] => false
  | p :: ps, c :: cs => p == c && beginsWithChars ps cs

/-- Whether `pat` occurs contiguously inside `s` (character lists). -/
def hasSubChars (pat : List Char) : List Char → Bool
  | [] => pat.isEmpty
  | c :: cs => beginsWithChars pat (c :: cs) || hasSubChars pat cs

/-- Model of JavaScript `s.includes(pat)`. -/
def jsIncludes (s pat : String) : Bool := hasSubChars pat.data s.data

/-- The generic share-intent URL (`part_000` lines 210–211). -/
def genericTweetIntent : String := "https://twitter.com/intent/tweet"

/-- Model of `handleShareTwitter` (`part_000` lines 208–213): returns the
URL passed to `window.open`.  The share text is the caption, a blank line,
and the content link, URL-encoded; the base URL is the user's configured
Twitter link only when that link itself contains `intent/tweet`, otherwise
the generic intent URL. -/
def handleShareTwitter (adCaption contentUrl : String)
    (userProfile : Option UserProfile) : String :=
  let text := encodeURIComponent (adCaption ++ "\n\n" ++ contentUrl)
  let twitterUrl := jsOr (match userProfile with
    | none => ""
    | some p => p.twitter) genericTweetIntent
  let baseUrl := if jsIncludes twitterUrl "intent/tweet" then twitterUrl
    else genericTweetIntent
  baseUrl ++ "?text=" ++ text

/-- A profile whose Twitter link is configured as an ordinary profile URL
(what the auth form's "Link do seu Twitter/X" field collects). -/
def profileWithPlainTwitterLink : UserProfile :=
  ⟨"Geo", "11999999999", "https://instagram.com/geoken",
   "https://twitter.com/geoken", "https://tiktok.com/@geoken"⟩

/-- Lowercase hexadecimal digit for `n < 16`. -/
def hexLowerDigit (n : ℕ) : Char :=
  if n < 10 then Char.ofNat (48 + n) else Char.ofNat (87 + n)

/-- JSON string escaping of one character, as performed by `JSON.stringify`:
quote, backslash and the five short control escapes use two-character
escapes, every other control character becomes `\u00xy`, and all remaining
characters pass through. -/
def escapeChar (c : Char) : List Char :=
  if c = '"' then ['\\', '"']
  else if c = '\\' then ['\\', '\\']
  else if c = Char.ofNat 8 then ['\\', 'b']
  else if c = Char.ofNat 12 then ['\\', 'f']
  else if c = '\n' then ['\\', 'n']
  else if c = Char.ofNat 13 then ['\\', 'r']
  else if c = '\t' then ['\\', 't']
  else if c.toNat < 32 then
    ['\\', 'u', '0', '0', hexLowerDigit (c.toNat / 16), hexLowerDigit (c.toNat % 16)]
  else [c]

/-- JSON string escaping of a character sequence. -/
def escapeChars (s : List Char) : List Char := s.flatMap escapeChar

/-- Decoding of one short JSON escape, as accepted by `JSON.parse`. -/
def unescapeShort (e : Char) : Option Char :=
  if e = '"' then some '"'
  else if e = '\\' then some '\\'
  else if e = '/' then some '/'
  else if e = 'b' then some (Char.ofNat 8)
  else if e = 'f' then some (Char.ofNat 12)
  else if e = 'n' then some '\n'
  else if e = 'r' then some (Char.ofNat 13)
  else if e = 't' then some '\t'
  else none

/-- Value of one hexadecimal digit character, if it is one. -/
def parseHexDigit (c : Char) : Option ℕ :=
  if '0' ≤ c && c ≤ '9' then some (c.toNat - 48)
  else if 'a' ≤ c && c ≤ 'f' then some (c.toNat - 87)
  else if 'A' ≤ c && c ≤ 'F' then some (c.toNat - 55)
  else none

/-- Scanner for the body of a JSON string literal (the opening quote already
consumed): returns the decoded content and the input after the closing
quote, handling short escapes and `\uXXXX` escapes as `JSON.parse` does. -/
def parseStringBody : List Char → Option (List Char × List Char)
  | [] => none
  | c :: rest =>
    if c = '"' then some ([], rest)
    else if c = '\\' then
      match rest with
      | [] => none
      | e :: rest2 =>
        if e = 'u' then
          match rest2 with
          | h1 :: h2 :: h3 :: h4 :: rest3 =>
            match parseHexDigit h1, parseHexDigit h2, parseHexDigit h3, parseHexDigit h4 with
            | some a, some b, some c3, some d =>
              match parseStringBody rest3 with
              | some (s, r) => some (Char.ofNat (4096 * a + 256 * b + 16 * c3 + d) :: s, r)
              | none => none
            | _, _, _, _ => none
          | _ => none
        else
          match unescapeShort e with
          | some d =>
            match parseStringBody rest2 with
            | some (s, r) => some (d :: s, r)
            | none => none
          | none => none
    else
      match parseStringBody rest with
      | some (s, r) => some (c :: s, r)
      | none => none

/-- Model of `JSON.stringify(profile)` (`part_000` line 156) for the
`UserProfile` record: the five fields in declaration order, each value a
JSON string literal with `escapeChars` escaping. -/
def stringifyProfile (p : UserProfile) : String :=
  String.mk (("\x7b\"name\":\"").data ++ escapeChars p.name.data ++
    ("\",\"phone\":\"").data ++ escapeChars p.phone.data ++
    ("\",\"instagram\":\"").data ++ escapeChars p.instagram.data ++
    ("\",\"twitter\":\"").data ++ escapeChars p.twitter.data ++
    ("\",\"tiktok\":\"").data ++ escapeChars p.tiktok.data ++ ("\"\x7d").data)

/-- Consume an expected literal segment of the input. -/
def stripExpected : List Char → List Char → Option (List Char)
  | [], s => some s
  | _ :: _, [] => none
  | e :: es, c :: cs => if e = c then stripExpected es cs else none

/-- Model of `JSON.parse(saved)` (`part_000` line 130) restricted to the
shape `JSON.stringify` produces for a `UserProfile` record: the five
known keys in order, each value a JSON string literal. -/
def parseProfile (s : String) : Option UserProfile :=
  match stripExpected ("\x7b\"name\":\"").data s.data with
  | none => none
  | some s0 =>
  match parseStringBody s0 with
  | none => none
  | some (name, s1) =>
  match stripExpected (",\"phone\":\"").data s1 with
  | none => none
  | some s2 =>
  match parseStringBody s2 with
  | none => none
  | some (phone, s3) =>
  match stripExpected (",\"instagram\":\"").data s3 with
  | none => none
  | some s4 =>
  match parseStringBody s4 with
  | none => none
  | some (instagram, s5) =>
  match stripExpected (",\"twitter\":\"").data s5 with
  | none => none
  | some s6 =>
  match parseStringBody s6 with
  | none => none
  | some (twitter, s7) =>
  match stripExpected (",\"tiktok\":\"").data s7 with
  | none => none
  | some s8 =>
  match parseStringBody s8 with
  | none => none
  | some (tiktok, s9) =>
  match s9 with
  | ['\x7d'] =>
    some ⟨String.mk name, String.mk phone, String.mk instagram,
          String.mk twitter, String.mk tiktok⟩
  | _ => none

/-- The `localStorage` key of the profile record (`part_000` lines 128 and
156). -/
def profileStorageKey : String := "typeMotion_profile"

/-- `localStorage.setItem` over a store modelled as a partial map. -/
def localStorageSetItem (store : String → Option String) (k v : String) :
    String → Option String :=
  fun q => if q = k then some v else store q

/-- Model of the persistence in `saveProfile` (`part_000` lines 145–158):
the profile is serialised wholesale under the fixed key. -/
def saveProfile (store : String → Option String) (p : UserProfile) :
    String → Option String :=
  localStorageSetItem store profileStorageKey (stringifyProfile p)

/-- Model of the startup load (`part_000` lines 127–132): read the fixed
key and parse it when present. -/
def loadProfile (store : String → Option String) : Option UserProfile :=
  (store profileStorageKey).bind parseProfile

/-! ## Theorems -/

/-- Behaviour of the poll loop against the C3 double: starting not-done at
check index `i ≤ N`, it emits one 5000 ms sleep before each status check,
checks indices `i, …, N`, and ends with the completed operation. -/
theorem pollDouble_loop (N : ℕ) (doneOp : VideoOperation) (hdone : doneOp.done = true) :
    ∀ fuel i, i ≤ N → N - i < fuel →
      pollVideoOperation (pollDouble N doneOp) ⟨false, none⟩ i fuel =
        ((List.range' i (N + 1 - i)).flatMap
          (fun j => [PollEvent.sleepMs 5000, PollEvent.statusCheck j]),
         some doneOp) := by
  intro fuel
  induction fuel with
  | zero => intro i hi hf; omega
  | succ fuel ih =>
    intro i hi hf
    rw [pollVideoOperation]
    rw [if_neg (by decide)]
    by_cases hiN : i < N
    · have hpoll : pollDouble N doneOp i = ⟨false, none⟩ := by simp [pollDouble, hiN]
      rw [hpoll, ih (i+1) (by omega) (by omega)]
      have h1 : N + 1 - i = (N + 1 - (i+1)) + 1 := by omega
      rw [h1, List.range'_succ]
      simp
    · have hpoll : pollDouble N doneOp i = doneOp := by simp [pollDouble, hiN]
      rw [hpoll, pollVideoOperation.eq_def]
      rw [if_pos hdone]
      have h1 : N + 1 - i = 1 := by omega
      rw [h1]
      simp [List.range'_succ]

/-- Each sleep/check block contributes exactly one status check. -/
theorem countP_blocks (l : List ℕ) :
    ((l.flatMap fun j => [PollEvent.sleepMs 5000, PollEvent.statusCheck j]).countP
      PollEvent.isStatusCheck) = l.length := by
  induction l with
  | nil => rfl
  | cons a l ih => simp [List.countP_cons, PollEvent.isStatusCheck, ih]

/-- Helper: a string of length at least 5 stays at least that long after
appending on both sides. -/
theorem five_le_length_affix (pre d suf : String) (h : 5 ≤ pre.length) :
    5 ≤ (pre ++ d ++ suf).length := by
  rw [String.length_append, String.length_append]; omega

/-- Every fallback caption has length at least 5, whatever the product
text. -/
theorem fallbackCaption_length_ge (d : String) (r : Fin 4) :
    5 ≤ (fallbackCaption d r).length := by
  fin_cases r <;> exact five_le_length_affix _ _ _ (by decide)

/-- The fallback caption is always one of the four templates. -/
theorem fallbackCaption_mem (d : String) (r : Fin 4) :
    fallbackCaption d r ∈ fallbackFrases d := List.get_mem _ _ _

/-- `s.slice(0, n)` has length at most `n`. -/
theorem jsSlice_length_le (s : String) (n : ℕ) : (jsSlice s n).length ≤ n := by
  show (s.data.take n).length ≤ n
  rw [List.length_take]; omega

set_option maxRecDepth 10000 in
/-- C1 (counterexample): on a non-empty 200-character product text, a failing
model call makes `generateAdCaption` fall back to a template that interpolates
the product text verbatim, and the result is longer than 160 characters, so
the claimed ≤ 160 bound fails on the fallback path. -/
theorem generateAdCaption_bound_counterexample :
    longProduct ≠ "" ∧
    ¬ (generateAdCaption longProduct "estilo" "link" (Except.error ()) 0).length ≤ 160 := by
  decide

/-- C1 (amended): for every non-empty product text, `generateAdCaption`
returns a string of length at least 5; the result is at most 160 characters
whenever it comes from the model call (which is trimmed and sliced to 160),
while the fallback path returns one of the four templates, whose length is
the template's fixed length plus the product text's length and so can exceed
160 for long product texts. -/
theorem generateAdCaption_length_bounds (description style link : String)
    (h : description ≠ "") (call : TextModelCall) (rand : Fin 4) :
    5 ≤ (generateAdCaption description style link call rand).length ∧
    (generateAdCaption description style link call rand ∈ fallbackFrases description ∨
      (generateAdCaption description style link call rand).length ≤ 160) := by
  cases call with
  | error e => exact ⟨fallbackCaption_length_ge _ _, Or.inl (fallbackCaption_mem _ _)⟩
  | ok t =>
    cases t with
    | none => exact ⟨fallbackCaption_length_ge _ _, Or.inl (fallbackCaption_mem _ _)⟩
    | some s =>
      by_cases hc : jsSlice (jsTrim s) 160 = "" ∨ (jsSlice (jsTrim s) 160).length < 5
      · simp only [generateAdCaption, if_pos hc]
        exact ⟨fallbackCaption_length_ge _ _, Or.inl (fallbackCaption_mem _ _)⟩
      · simp only [generateAdCaption, if_neg hc]
        push_neg at hc
        exact ⟨by omega, Or.inr (jsSlice_length_le _ _)⟩

/-- C1 (witness): the amended bound, evaluated on the concrete product text
"Tênis" with a successful model response. -/
theorem generateAdCaption_length_bounds_witness :
    ("Tênis" : String) ≠ "" ∧
    (5 ≤ (generateAdCaption "Tênis" "estilo" "link"
        (Except.ok (some "Compre agora este achado!")) 0).length ∧
      (generateAdCaption "Tênis" "estilo" "link"
          (Except.ok (some "Compre agora este achado!")) 0 ∈ fallbackFrases "Tênis" ∨
        (generateAdCaption "Tênis" "estilo" "link"
            (Except.ok (some "Compre agora este achado!")) 0).length ≤ 160)) :=
  ⟨by decide, generateAdCaption_length_bounds "Tênis" "estilo" "link" (by decide)
    (Except.ok (some "Compre agora este achado!")) 0⟩

/-- C5: `generateStyleSuggestion` is modelled as a total function (the source
wraps the provider call in `try`/`catch`, so it never raises), and whenever
the underlying model call fails it returns exactly the fixed default
description string. -/
theorem generateStyleSuggestion_default_on_failure (text : String) :
    generateStyleSuggestion text (Except.error ()) = defaultStyleSuggestion := rfl

/-- C10: when the model call in `generateStyleSuggestion` succeeds but its
text is absent, or trims to the empty string, the function returns the empty
string rather than the fixed default. -/
theorem generateStyleSuggestion_empty_success (text : String) :
    generateStyleSuggestion text (Except.ok none) = "" ∧
    ∀ s : String, jsTrim s = "" → generateStyleSuggestion text (Except.ok (some s)) = "" := by
  refine ⟨rfl, ?_⟩
  intro s hs
  simp [generateStyleSuggestion, jsOr, hs]

/-- C10 (witness): the empty-success behaviour evaluated on a concrete
whitespace-only model response. -/
theorem generateStyleSuggestion_empty_success_witness :
    jsTrim "   " = "" ∧ generateStyleSuggestion "Tênis Azul" (Except.ok (some "   ")) = "" :=
  ⟨by decide, (generateStyleSuggestion_empty_success "Tênis Azul").2 "   " (by decide)⟩

/-- C6 (counterexample): a response whose second candidate carries an inline
image part does contain a part with an embedded inline image, yet
`generateTextImage` still fails, because the source inspects only the first
candidate — refuting the claimed "exactly when" characterisation over the
whole response. -/
theorem generateTextImage_counterexample :
    responseHasInlineImagePart respSecondCandidateInline = true ∧
    generateTextImage respSecondCandidateInline = Except.error "Falha ao gerar imagem." :=
  ⟨rfl, rfl⟩

/-- C6 (amended): `generateTextImage` fails with `"Falha ao gerar imagem."`
exactly when the FIRST candidate of the model response contains no part with
inline data, and it has no fallback: any successful result is the inline
payload of the part found in the first candidate, paired with that part's
encoding kind (defaulted to `image/png` when absent or empty). -/
theorem generateTextImage_first_candidate_spec (resp : ImageResponse) :
    (generateTextImage resp = Except.error "Falha ao gerar imagem." ↔
      firstCandidateHasInlinePart resp = false) ∧
    (∀ d, generateTextImage resp = Except.ok d →
      ∃ idata : InlineData,
        (firstCandidateFoundPart resp).bind (·.inlineData) = some idata ∧
        d = (idata.data, jsOr (idata.mimeType.getD "") "image/png")) := by
  cases hfc : firstCandidateContent resp with
  | none =>
    constructor
    · simp [generateTextImage, firstCandidateFoundPart, firstCandidateHasInlinePart, hfc]
    · intro d hd
      simp [generateTextImage, firstCandidateFoundPart, hfc] at hd
  | some c =>
    cases hf : c.parts.find? (fun p => p.inlineData.isSome) with
    | none =>
      have hall := List.find?_eq_none.mp hf
      constructor
      · simp only [generateTextImage, firstCandidateFoundPart, firstCandidateHasInlinePart,
          hfc, hf, Option.bind_some, Option.bind_none, Option.map_some, Option.getD_some]
        simp only [List.any_eq_false]
        constructor
        · intro _ p hp
          exact fun hps => (Bool.not_eq_true _).mpr (by simpa using hall p hp) hps
        · intro _
          simp [hf]
      · intro d hd
        simp [generateTextImage, firstCandidateFoundPart, hfc, hf] at hd
    | some part =>
      have hp : part.inlineData.isSome = true := by
        have := List.find?_some hf
        simpa using this
      have hmem : part ∈ c.parts := List.mem_of_find?_eq_some hf
      obtain ⟨idata, hid⟩ := Option.isSome_iff_exists.mp hp
      constructor
      · constructor
        · intro habs
          simp [generateTextImage, firstCandidateFoundPart, hfc, hf, hid] at habs
        · intro habs
          exfalso
          simp only [firstCandidateHasInlinePart, hfc, Option.map_some, Option.getD_some,
            List.any_eq_false] at habs
          exact habs part hmem hp
      · intro d hd
        refine ⟨idata, ?_, ?_⟩
        · simp [firstCandidateFoundPart, hfc, hf, hid]
        · simp [generateTextImage, firstCandidateFoundPart, hfc, hf, hid] at hd
          exact hd.symm

/-- C3: against a provider double whose status checks report "not done" `N`
times and then a completed operation, the poll loop of `generateTextVideo`
performs exactly `N + 1` status checks, every status check is preceded by the
fixed 5000 ms delay (the event trace is exactly `N + 1` sleep/check blocks),
the loop ends with the completed operation, and the client then returns the
result fetched from the completed operation's URI whenever that URI is
present and non-empty (a falsy URI throws instead). -/
theorem generateTextVideo_poll_counts (N fuel : ℕ) (doneOp : VideoOperation)
    (hdone : doneOp.done = true) (hfuel : N < fuel) :
    pollVideoOperation (pollDouble N doneOp) ⟨false, none⟩ 0 fuel =
      ((List.range' 0 (N + 1)).flatMap
        (fun j => [PollEvent.sleepMs 5000, PollEvent.statusCheck j]), some doneOp) ∧
    (pollVideoOperation (pollDouble N doneOp) ⟨false, none⟩ 0 fuel).1.countP
        PollEvent.isStatusCheck = N + 1 ∧
    (∀ fetchUrl : String → String, ∀ apiKey uri : String,
      operationUri doneOp = some uri → uri ≠ "" →
      generateTextVideo (pollDouble N doneOp) ⟨false, none⟩ fetchUrl apiKey fuel =
        some (Except.ok (fetchUrl (uri ++ "&key=" ++ apiKey)))) := by
  have hmain := pollDouble_loop N doneOp hdone fuel 0 (by omega) (by omega)
  have h0 : N + 1 - 0 = N + 1 := by omega
  rw [h0] at hmain
  refine ⟨hmain, ?_, ?_⟩
  · rw [hmain]
    exact (countP_blocks _).trans (List.length_range' _ _ _)
  · intro fetchUrl apiKey uri huri hne
    unfold generateTextVideo
    rw [hmain]
    simp [huri, hne]

/-- C3 (witness): the poll-loop behaviour evaluated against the concrete
double with `N = 2` and fuel 4: three status checks and the fetched result. -/
theorem generateTextVideo_poll_counts_witness :
    doneOpSample.done = true ∧ 2 < 4 ∧
    (pollVideoOperation (pollDouble 2 doneOpSample) ⟨false, none⟩ 0 4).1.countP
        PollEvent.isStatusCheck = 2 + 1 ∧
    generateTextVideo (pollDouble 2 doneOpSample) ⟨false, none⟩
        (fun s => "blob:" ++ s) "KEY" 4 =
      some (Except.ok ("blob:" ++ ("https://video.example/u?alt=media" ++ "&key=" ++ "KEY"))) := by
  refine ⟨rfl, by omega, ?_, ?_⟩
  · exact (generateTextVideo_poll_counts 2 4 doneOpSample rfl (by omega)).2.1
  · exact (generateTextVideo_poll_counts 2 4 doneOpSample rfl (by omega)).2.2
      (fun s => "blob:" ++ s) "KEY" "https://video.example/u?alt=media" rfl (by decide)

/-- C2: for every successful run started by `startProcess` from Idle (valid
input, key selected, image and video calls succeed), the visited ViewStates
are exactly Idle → GeneratingImage → GeneratingVideo → Playing, and in the
setter trace the generated caption is stored before the image data URL,
which is stored before the video URL. -/
theorem startProcess_success_sequence (env : RunEnv) (s0 : ControllerState)
    (h0 : s0.state = AppState.IDLE)
    (hin : jsTrim env.inputText ≠ "")
    (hkey : env.keySelected = true)
    (b64Image mimeType videoUrl : String)
    (himg : env.imageResult = Except.ok (b64Image, mimeType))
    (hvid : env.videoResult = Except.ok videoUrl) :
    s0.state :: stateTrace (startProcess env s0).2 =
      [AppState.IDLE, .GENERATING_IMAGE, .GENERATING_VIDEO, .PLAYING] ∧
    (∃ i j k : ℕ, i < j ∧ j < k ∧
      (startProcess env s0).2.get? i = some (.setAdCaptionA env.captionResult) ∧
      (startProcess env s0).2.get? j =
        some (.setImageSrcA (some ("data:" ++ mimeType ++ ";base64," ++ b64Image))) ∧
      (startProcess env s0).2.get? k = some (.setVideoSrcA (some videoUrl))) := by
  have hacts : (startProcess env s0).2 =
      [.setStateA .GENERATING_IMAGE, .setVideoSrcA none, .setImageSrcA none,
       .setAdCaptionA "", .setStatusMessageA "Analisando produto...",
       .setAdCaptionA env.captionResult,
       .setImageSrcA (some ("data:" ++ mimeType ++ ";base64," ++ b64Image)),
       .setStateA .GENERATING_VIDEO,
       .setStatusMessageA "Criando vídeo com legenda estética...",
       .setVideoSrcA (some videoUrl), .setStateA .PLAYING] := by
    simp only [startProcess, if_neg hin, hkey, himg, hvid]
    simp
  constructor
  · rw [hacts, h0]
    rfl
  · refine ⟨5, 6, 9, by omega, by omega, ?_, ?_, ?_⟩ <;> rw [hacts] <;> rfl

/-- C2 (witness): the success sequence evaluated on a concrete environment
and the concrete Idle start state. -/
theorem startProcess_success_sequence_witness :
    idleState.state = AppState.IDLE ∧
    jsTrim envOk.inputText ≠ "" ∧
    envOk.keySelected = true ∧
    (idleState.state :: stateTrace (startProcess envOk idleState).2 =
      [AppState.IDLE, .GENERATING_IMAGE, .GENERATING_VIDEO, .PLAYING] ∧
    (∃ i j k : ℕ, i < j ∧ j < k ∧
      (startProcess envOk idleState).2.get? i = some (.setAdCaptionA envOk.captionResult) ∧
      (startProcess envOk idleState).2.get? j =
        some (.setImageSrcA (some ("data:" ++ "image/png" ++ ";base64," ++ "IMGB64"))) ∧
      (startProcess envOk idleState).2.get? k = some (.setVideoSrcA (some "blob:video-1")))) :=
  ⟨rfl, by decide, rfl,
    startProcess_success_sequence envOk idleState rfl (by decide) rfl
      "IMGB64" "image/png" "blob:video-1" rfl rfl⟩

/-- C4 (counterexample): `startProcess` itself does not consult the
ViewState: called while Playing, with valid input, a selected key and a
failing video call, it leaves Playing and ends in Error — not a no-op. -/
theorem startProcess_not_idle_counterexample :
    playingState.state = AppState.PLAYING ∧
    (startProcess envVideoFail playingState).1.state = AppState.ERROR := by
  exact ⟨rfl, rfl⟩

/-- C4 (amended): the no-op is enforced by the consumer, not by
`startProcess`: the submit control is disabled whenever the state is not
Idle (or the input is empty), so the submit action dispatchable through the
form leaves the state and the image, video and caption fields unchanged when
the ViewState is not Idle. -/
theorem submitFromForm_not_idle_noop (env : RunEnv) (s : ControllerState)
    (h : s.state ≠ AppState.IDLE) :
    submitFromForm env s = (s, []) := by
  have hd : submitDisabled env s = true := by
    simp [submitDisabled, h]
  unfold submitFromForm
  rw [if_pos hd]

/-- C4 (witness): a submit dispatched through the form while Playing changes
nothing, even with a fully valid environment. -/
theorem submitFromForm_not_idle_noop_witness :
    playingState.state ≠ AppState.IDLE ∧
    submitFromForm envOk playingState = (playingState, []) :=
  ⟨by decide, submitFromForm_not_idle_noop envOk playingState (by decide)⟩

/-- C7: when the poll loop ends with a completed operation that carries no
result URI, `generateTextVideo` raises `"Falha ao gerar vídeo."`; feeding
that failure into the controller run (whose image stage succeeded) ends the
run in Error with the image data URL still stored and the video field still
unset. -/
theorem generateTextVideo_missing_uri (poll : ℕ → VideoOperation)
    (submitOp : VideoOperation) (fetchUrl : String → String) (apiKey : String)
    (fuel : ℕ) (finalOp : VideoOperation)
    (hloop : (pollVideoOperation poll submitOp 0 fuel).2 = some finalOp)
    (huri : operationUri finalOp = none)
    (env : RunEnv) (s0 : ControllerState) (b64Image mimeType : String)
    (hin : jsTrim env.inputText ≠ "") (hkey : env.keySelected = true)
    (himg : env.imageResult = Except.ok (b64Image, mimeType))
    (hvid : env.videoResult = Except.error "Falha ao gerar vídeo.") :
    generateTextVideo poll submitOp fetchUrl apiKey fuel =
      some (Except.error "Falha ao gerar vídeo.") ∧
    (startProcess env s0).1.state = AppState.ERROR ∧
    (startProcess env s0).1.imageSrc =
      some ("data:" ++ mimeType ++ ";base64," ++ b64Image) ∧
    (startProcess env s0).1.videoSrc = none := by
  refine ⟨?_, ?_, ?_, ?_⟩
  · simp [generateTextVideo, hloop, huri]
  all_goals
    simp only [startProcess, if_neg hin, hkey, himg, hvid]
    simp [errMessage, jsOr]

/-- C7 (witness): evaluated on a concrete completed-but-empty operation and
the concrete video-failure environment from the Idle start state. -/
theorem generateTextVideo_missing_uri_witness :
    (pollVideoOperation (fun _ => ⟨true, none⟩) ⟨true, none⟩ 0 0).2 =
      some (⟨true, none⟩ : VideoOperation) ∧
    operationUri ⟨true, none⟩ = none ∧
    (generateTextVideo (fun _ => ⟨true, none⟩) ⟨true, none⟩ (fun s => "blob:" ++ s) "KEY" 0 =
      some (Except.error "Falha ao gerar vídeo.") ∧
    (startProcess envVideoFail idleState).1.state = AppState.ERROR ∧
    (startProcess envVideoFail idleState).1.imageSrc =
      some ("data:" ++ "image/png" ++ ";base64," ++ "IMGB64") ∧
    (startProcess envVideoFail idleState).1.videoSrc = none) :=
  ⟨rfl, rfl,
    (generateTextVideo_missing_uri (fun _ => ⟨true, none⟩) ⟨true, none⟩
      (fun s => "blob:" ++ s) "KEY" 0 ⟨true, none⟩ rfl rfl
      envVideoFail idleState "IMGB64" "image/png" (by decide) rfl rfl rfl).1,
    (generateTextVideo_missing_uri (fun _ => ⟨true, none⟩) ⟨true, none⟩
      (fun s => "blob:" ++ s) "KEY" 0 ⟨true, none⟩ rfl rfl
      envVideoFail idleState "IMGB64" "image/png" (by decide) rfl rfl rfl).2⟩

/-- C8 (counterexample): a user whose Twitter link is configured as an
ordinary profile URL still gets the generic share-intent URL — the opened
URL is not built from the configured link, refuting "falling back … only
when the user has not configured a personal network link". -/
theorem handleShareTwitter_counterexample :
    profileWithPlainTwitterLink.twitter ≠ "" ∧
    handleShareTwitter "Oi" "" (some profileWithPlainTwitterLink) =
      genericTweetIntent ++ "?text=" ++ encodeURIComponent ("Oi" ++ "\n\n" ++ "") ∧
    handleShareTwitter "Oi" "" (some profileWithPlainTwitterLink) ≠
      profileWithPlainTwitterLink.twitter ++ "?text=" ++
        encodeURIComponent ("Oi" ++ "\n\n" ++ "") := by
  refine ⟨by decide, rfl, by decide⟩

/-- C8 (amended): the share action composes the caption plus the external
content link, URL-encodes it, and appends it as the `text` query parameter;
the base URL is the user's configured Twitter link only when that link
itself contains `intent/tweet`; when the link is unconfigured, empty, or
does not contain `intent/tweet` (e.g. an ordinary profile URL), the generic
share-intent URL is used. -/
theorem handleShareTwitter_spec (adCaption contentUrl : String)
    (userProfile : Option UserProfile) :
    (userProfile = none →
      handleShareTwitter adCaption contentUrl userProfile =
        genericTweetIntent ++ "?text=" ++
          encodeURIComponent (adCaption ++ "\n\n" ++ contentUrl)) ∧
    (∀ p, userProfile = some p →
      jsIncludes p.twitter "intent/tweet" = false →
      handleShareTwitter adCaption contentUrl userProfile =
        genericTweetIntent ++ "?text=" ++
          encodeURIComponent (adCaption ++ "\n\n" ++ contentUrl)) ∧
    (∀ p, userProfile = some p → p.twitter ≠ "" →
      jsIncludes p.twitter "intent/tweet" = true →
      handleShareTwitter adCaption contentUrl userProfile =
        p.twitter ++ "?text=" ++
          encodeURIComponent (adCaption ++ "\n\n" ++ contentUrl)) := by
  have hgen : jsIncludes genericTweetIntent "intent/tweet" = true := by decide
  refine ⟨?_, ?_, ?_⟩
  · intro h; subst h
    simp [handleShareTwitter, jsOr, hgen]
  · intro p hp hninc; subst hp
    by_cases htw : p.twitter = ""
    · simp [handleShareTwitter, jsOr, htw, hgen]
    · simp [handleShareTwitter, jsOr, htw, hninc]
  · intro p hp htw hinc; subst hp
    simp [handleShareTwitter, jsOr, htw, hinc]

/-- C8 (witness): the amended behaviour evaluated on the concrete profile
with a plain Twitter profile link. -/
theorem handleShareTwitter_spec_witness :
    jsIncludes profileWithPlainTwitterLink.twitter "intent/tweet" = false ∧
    handleShareTwitter "Promoção!" "https://loja.example/p"
        (some profileWithPlainTwitterLink) =
      genericTweetIntent ++ "?text=" ++
        encodeURIComponent ("Promoção!" ++ "\n\n" ++ "https://loja.example/p") :=
  ⟨by decide, (handleShareTwitter_spec "Promoção!" "https://loja.example/p"
      (some profileWithPlainTwitterLink)).2.1 profileWithPlainTwitterLink rfl (by decide)⟩

/-- Each hexadecimal digit emitted by the escaper is decoded back to its
value. -/
theorem parseHexDigit_hexLowerDigit (k : ℕ) (h : k < 16) :
    parseHexDigit (hexLowerDigit k) = some k := by
  interval_cases k <;> decide

/-- Round trip of JSON string escaping: the scanner decodes an escaped
content followed by a closing quote back to the original content. -/
theorem parseStringBody_escapeChars (s : List Char) :
    ∀ rest, parseStringBody (escapeChars s ++ '"' :: rest) = some (s, rest) := by
  induction s with
  | nil =>
    intro rest
    rw [show escapeChars [] ++ '"' :: rest = '"' :: rest from rfl, parseStringBody.eq_def]
    simp
  | cons c s ih =>
    intro rest
    have hstep : escapeChars (c :: s) = escapeChar c ++ escapeChars s := by
      simp [escapeChars]
    rw [hstep, List.append_assoc]
    by_cases hq : c = '"'
    · subst hq
      rw [show escapeChar '"' ++ (escapeChars s ++ '"' :: rest) =
        '\\' :: '"' :: (escapeChars s ++ '"' :: rest) from rfl, parseStringBody.eq_def]
      simp [unescapeShort, ih]
    · by_cases hb : c = '\\'
      · subst hb
        rw [show escapeChar '\\' ++ (escapeChars s ++ '"' :: rest) =
          '\\' :: '\\' :: (escapeChars s ++ '"' :: rest) from rfl, parseStringBody.eq_def]
        simp [unescapeShort, ih]
      · by_cases h8 : c = Char.ofNat 8
        · subst h8
          rw [show escapeChar (Char.ofNat 8) ++ (escapeChars s ++ '"' :: rest) =
            '\\' :: 'b' :: (escapeChars s ++ '"' :: rest) from rfl, parseStringBody.eq_def]
          simp [unescapeShort, ih]
        · by_cases h12 : c = Char.ofNat 12
          · subst h12
            rw [show escapeChar (Char.ofNat 12) ++ (escapeChars s ++ '"' :: rest) =
              '\\' :: 'f' :: (escapeChars s ++ '"' :: rest) from rfl, parseStringBody.eq_def]
            simp [unescapeShort, ih]
          · by_cases h10 : c = '\n'
            · subst h10
              rw [show escapeChar '\n' ++ (escapeChars s ++ '"' :: rest) =
                '\\' :: 'n' :: (escapeChars s ++ '"' :: rest) from rfl, parseStringBody.eq_def]
              simp [unescapeShort, ih]
            · by_cases h13 : c = Char.ofNat 13
              · subst h13
                rw [show escapeChar (Char.ofNat 13) ++ (escapeChars s ++ '"' :: rest) =
                  '\\' :: 'r' :: (escapeChars s ++ '"' :: rest) from rfl, parseStringBody.eq_def]
                simp [unescapeShort, ih]
              · by_cases h9 : c = '\t'
                · subst h9
                  rw [show escapeChar '\t' ++ (escapeChars s ++ '"' :: rest) =
                    '\\' :: 't' :: (escapeChars s ++ '"' :: rest) from rfl, parseStringBody.eq_def]
                  simp [unescapeShort, ih]
                · by_cases hctl : c.toNat < 32
                  · have he : escapeChar c = ['\\', 'u', '0', '0',
                        hexLowerDigit (c.toNat / 16), hexLowerDigit (c.toNat % 16)] := by
                      simp [escapeChar, hq, hb, h8, h12, h10, h13, h9, hctl]
                    rw [he]
                    simp only [List.cons_append, List.nil_append]
                    rw [parseStringBody.eq_def]
                    have hh0 : parseHexDigit '0' = some 0 := rfl
                    have hh1 := parseHexDigit_hexLowerDigit (c.toNat / 16) (by omega)
                    have hh2 := parseHexDigit_hexLowerDigit (c.toNat % 16) (by omega)
                    have harith :
                        16 * (c.toNat / 16) + c.toNat % 16 = c.toNat := by
                      omega
                    simp [hh0, hh1, hh2, ih, harith, Char.ofNat_toNat]
                  · have he : escapeChar c = [c] := by
                      simp [escapeChar, hq, hb, h8, h12, h10, h13, h9, hctl]
                    rw [he]
                    simp only [List.cons_append, List.nil_append]
                    rw [parseStringBody.eq_def]
                    simp [hq, hb, ih]

/-- Parsing a stringified profile recovers the profile exactly. -/
theorem parseProfile_stringifyProfile (p : UserProfile) :
    parseProfile (stringifyProfile p) = some p := by
  obtain ⟨name, phone, instagram, twitter, tiktok⟩ := p
  simp [parseProfile, stringifyProfile, stripExpected, parseStringBody_escapeChars,
    List.append_eq, List.append_assoc]

/-- C9: saving a UserProfile (name, phone, and the three social-network
links) and then reloading it from the simulated persistent store yields a
profile field-for-field equal to the one saved, for every profile and every
prior store contents. -/
theorem saveProfile_loadProfile_roundtrip (store : String → Option String)
    (p : UserProfile) :
    loadProfile (saveProfile store p) = some p := by
  have hkey : saveProfile store p profileStorageKey = some (stringifyProfile p) := by
    simp [saveProfile, localStorageSetItem]
  simp only [loadProfile, hkey, Option.some_bind]
  exact parseProfile_stringifyProfile p

end Clic
